import Mathlib

/-!
Verification development for the B2B outreach campaign backend
(`backend/app/services`): the workflow orchestrator, the discovery /
research / contact / email stages, and their heuristic field extractors.

The Python source is shallowly embedded: text manipulation is modelled on
`List Char` (Python string indexing and slicing are codepoint based, as is
`List Char`), dictionaries built by the parsers become structures with
`Option` fields, agent calls become explicit outcome parameters
(`Except`-valued: an exception, an absent/empty response, or response
text), and generators become functions returning the list of yielded
events.  Python float progress values are modelled as rationals; no claim
below depends on float rounding (only on the exact literals 0.0 and 1.0).
ASCII semantics are used for `lower`/`isdigit`/`\w`, matching every string
the code itself produces and all inputs used in witnesses.
-/

set_option maxRecDepth 200000

namespace EmailGTM

/-! ## Python string primitives on `List Char` -/

/-- Python whitespace class (`str.strip`, regex `\s`): space, tab, newline,
carriage return, vertical tab, form feed. -/
def isPySpace (c : Char) : Bool :=
  c = ' ' || c = '\t' || c = '\n' || c = '\r' || c = '\x0b' || c = '\x0c'

/-- ASCII digit test (Python `str.isdigit`, regex `\d`, on ASCII). -/
def isPyDigit (c : Char) : Bool :=
  '0' ≤ c && c ≤ '9'

/-- ASCII lower-casing of one character (Python `str.lower` on ASCII). -/
def lcChar (c : Char) : Char :=
  if 'A' ≤ c ∧ c ≤ 'Z' then Char.ofNat (c.toNat + 32) else c

/-- Python `str.lower` (character-wise, ASCII). -/
def lcL (cs : List Char) : List Char :=
  cs.map lcChar

/-- Python `str.lstrip()` (no argument: strip leading whitespace). -/
def pyLStrip (cs : List Char) : List Char :=
  cs.dropWhile isPySpace

/-- Python `str.rstrip()` (strip trailing whitespace). -/
def pyRStrip (cs : List Char) : List Char :=
  (cs.reverse.dropWhile isPySpace).reverse

/-- Python `str.strip()` (strip whitespace from both ends). -/
def pyStrip (cs : List Char) : List Char :=
  pyRStrip (pyLStrip cs)

/-- Python `str.strip()` on `String`. -/
def pyStripS (s : String) : String :=
  ⟨pyStrip s.data⟩

/-- Python `str.lstrip(charset)`: drop the leading run of characters drawn
from the given set. -/
def pyLStripSet (set : List Char) (cs : List Char) : List Char :=
  cs.dropWhile (fun c => set.contains c)

/-- Python `sub in s` / `s.find(sub) >= 0`: substring containment. -/
def hasSub (hay needle : List Char) : Bool :=
  match hay with
  | [] => needle.isEmpty
  | _ :: rest => needle.isPrefixOf hay || hasSub rest needle

/-- Python `s.find(sub)`: index of the first occurrence, `none` if absent. -/
def findSub (hay needle : List Char) : Option Nat :=
  match hay with
  | [] => if needle.isEmpty then some 0 else none
  | _ :: rest =>
    if needle.isPrefixOf hay then some 0
    else (findSub rest needle).map (· + 1)

/-- Python `s.split("\n")` (keeps empty pieces, as Python does for an
explicit separator). -/
def splitOnNl : List Char → List (List Char)
  | [] => [[]]
  | x :: xs =>
    match splitOnNl xs with
    | [] => [[x]]
    | y :: ys => if x = '\n' then [] :: y :: ys else (x :: y) :: ys

/-- Python `s.split(sep, 1)[1]` guarded by `sep in s`: `none` when the
single-character separator does not occur, otherwise the before/after
parts around its first occurrence. -/
def splitFirstOnChar (sep : Char) : List Char → Option (List Char × List Char)
  | [] => none
  | c :: cs =>
    if c = sep then some ([], cs)
    else (splitFirstOnChar sep cs).map (fun p => (c :: p.1, p.2))

/-- Python `s.split(".", 1)[-1]`: the part after the first occurrence of
the separator when present, the whole string otherwise. -/
def afterFirstOrAll (sep : Char) (cs : List Char) : List Char :=
  match splitFirstOnChar sep cs with
  | some p => p.2
  | none => cs

/-- Python `s.split(sep)` for a multi-character separator, fuelled: each
step consumes at least one character, so fuel `cs.length` is exact. -/
def splitOnStrAux (sep : List Char) : Nat → List Char → List (List Char)
  | 0, cs => [cs]
  | fuel + 1, cs =>
    match cs with
    | [] => [[]]
    | c :: rest =>
      if sep.isPrefixOf cs then
        [] :: splitOnStrAux sep fuel (cs.drop sep.length)
      else
        match splitOnStrAux sep fuel rest with
        | [] => [[c]]
        | y :: ys => (c :: y) :: ys

/-- Python `s.split(sep)` for a non-empty separator string. -/
def splitOnStr (sep : List Char) (cs : List Char) : List (List Char) :=
  splitOnStrAux sep cs.length cs

/-- Python `s.replace(pat, repl)`: left-to-right, non-overlapping, fuelled
by the string length. -/
def replaceAllAux (pat repl : List Char) : Nat → List Char → List Char
  | 0, cs => cs
  | fuel + 1, cs =>
    match cs with
    | [] => []
    | c :: rest =>
      if pat.isPrefixOf cs ∧ pat ≠ [] then
        repl ++ replaceAllAux pat repl fuel (cs.drop pat.length)
      else
        c :: replaceAllAux pat repl fuel rest

/-- Python `s.replace(pat, repl)` for a non-empty pattern. -/
def replaceAll (pat repl cs : List Char) : List Char :=
  replaceAllAux pat repl cs.length cs

/-- Python `"\n".join(pieces)`. -/
def joinNl : List (List Char) → List Char
  | [] => []
  | [x] => x
  | x :: y :: ys => x ++ '\n' :: joinNl (y :: ys)

/-- First `some` produced by `f` over a list, `none` otherwise; models a
Python `for` loop whose body may `return`. -/
def firstSome (f : α → Option β) : List α → Option β
  | [] => none
  | a :: as =>
    match f a with
    | some b => some b
    | none => firstSome f as

/-- Try a matcher at every suffix, leftmost first; models `re.search`. -/
def scanFirst (f : List Char → Option α) : List Char → Option α
  | [] => f []
  | c :: cs =>
    match f (c :: cs) with
    | some v => some v
    | none => scanFirst f cs

/-! ## URL extraction (`CompanyDiscoveryService._extract_markdown_url`,
`CompanyDiscoveryService._extract_url`) -/

def isAsciiAlpha (c : Char) : Bool :=
  ('a' ≤ c && c ≤ 'z') || ('A' ≤ c && c ≤ 'Z')

def isAsciiAlphaNum (c : Char) : Bool :=
  isAsciiAlpha c || isPyDigit c

/-- Does a Python string start with the given character? -/
def startsWithChar (c : Char) : List Char → Bool
  | [] => false
  | x :: _ => x = c

/-- Matcher for `\[([^\]]+)\]\((https?://[^\)]+)\)` anchored at the start
of the input; returns group 2 (the URL). -/
def matchMdAt (cs : List Char) : Option (List Char) :=
  match cs with
  | '[' :: rest =>
    let a := rest.takeWhile (fun c => c ≠ ']')
    if a = [] then none else
    match rest.drop a.length with
    | ']' :: '(' :: rest3 =>
      let scheme : Option Nat :=
        if "https://".data.isPrefixOf rest3 then some 8
        else if "http://".data.isPrefixOf rest3 then some 7
        else none
      match scheme with
      | none => none
      | some n =>
        let v := (rest3.drop n).takeWhile (fun c => c ≠ ')')
        if v = [] then none else
        match rest3.drop (n + v.length) with
        | ')' :: _ => some (rest3.take (n + v.length))
        | _ => none
    | _ => none
  | _ => none

/-- Search for the first markdown link and return its URL group
(`re.search` over the pattern above). -/
def searchMdUrl (cs : List Char) : Option (List Char) :=
  scanFirst matchMdAt cs

/-- `_extract_markdown_url`: first markdown-link URL, stripped. -/
def extractMarkdownUrl (cs : List Char) : Option (List Char) :=
  (searchMdUrl cs).map pyStrip

/-- Character class `[-a-zA-Z0-9@:%._\+~#=]` of the bare-URL pattern. -/
def isUrlClassA (c : Char) : Bool :=
  isAsciiAlphaNum c || "-@:%._+~#=".data.contains c

/-- Character class `[a-zA-Z0-9()]` (the TLD part of the bare-URL pattern). -/
def isUrlClassB (c : Char) : Bool :=
  isAsciiAlphaNum c || c = '(' || c = ')'

/-- Character class `[-a-zA-Z0-9()@:%_\+.~#?&/=]` (the trailing part). -/
def isUrlClassC (c : Char) : Bool :=
  isAsciiAlphaNum c || "-()@:%_+.~#?&/=".data.contains c

/-- Regex word character (`\w`, ASCII): alphanumeric or underscore. -/
def isWordChar (c : Char) : Bool :=
  isAsciiAlphaNum c || c = '_'

/-- Try TLD lengths `j+1, j, ..., 1` for `[a-zA-Z0-9()]{1,6}\b(?:classC*)`
at `rest2` (the text right after the matched dot); returns the number of
characters matched from `rest2` on. -/
def urlTailTld (rest2 : List Char) : Nat → Option Nat
  | 0 => none
  | j + 1 =>
    let len := j + 1
    let prevWord := isWordChar ((rest2.take len).getLastD ' ')
    let nextWord :=
      match rest2.drop len with
      | [] => false
      | c :: _ => isWordChar c
    if prevWord ≠ nextWord then
      some (len + ((rest2.drop len).takeWhile isUrlClassC).length)
    else
      urlTailTld rest2 j

/-- Try domain lengths `k+1, k, ..., 1` for
`[-a-zA-Z0-9@:%._\+~#=]{1,256}\.[a-zA-Z0-9()]{1,6}\b(?:classC*)` at `cs`;
greedy with backtracking, exactly as the regex engine resolves it.
Returns the number of characters matched from `cs` on. -/
def urlTailDomain (cs : List Char) : Nat → Option Nat
  | 0 => none
  | k + 1 =>
    let len := k + 1
    match cs.drop len with
    | '.' :: rest2 =>
      let b := min 6 (rest2.takeWhile isUrlClassB).length
      match urlTailTld rest2 b with
      | some t => some (len + 1 + t)
      | none => urlTailDomain cs k
    | _ => urlTailDomain cs k

/-- Match the part of the bare-URL pattern after the scheme and optional
`www.`; returns the matched length. -/
def urlTail (cs : List Char) : Option Nat :=
  urlTailDomain cs (min 256 ((cs.takeWhile isUrlClassA).length))

/-- Matcher for the bare-URL pattern
`https?://(?:www\.)?[-a-zA-Z0-9@:%._\+~#=]{1,256}\.[a-zA-Z0-9()]{1,6}\b(?:[-a-zA-Z0-9()@:%_\+.~#?&/=]*)`
anchored at the start of the input; returns group 0 (the whole match). -/
def matchUrlAt (cs : List Char) : Option (List Char) :=
  let scheme : Option Nat :=
    if "https://".data.isPrefixOf cs then some 8
    else if "http://".data.isPrefixOf cs then some 7
    else none
  match scheme with
  | none => none
  | some n =>
    let after := cs.drop n
    if "www.".data.isPrefixOf after then
      match urlTail (after.drop 4) with
      | some t => some (cs.take (n + 4 + t))
      | none => (urlTail after).map (fun t => cs.take (n + t))
    else
      (urlTail after).map (fun t => cs.take (n + t))

/-- `_extract_url`: first bare URL in the text (`re.search`). -/
def extractUrl (cs : List Char) : Option (List Char) :=
  scanFirst matchUrlAt cs

/-! ## `CompanyDiscoveryService._extract_numbered_field` -/

/-- Leading characters removed by `re.sub(r'^[\d\.\-\*•\s]+', '', line)`. -/
def isNumberedLead (c : Char) : Bool :=
  isPyDigit c || c = '.' || c = '-' || c = '*' || c = '•' || isPySpace c

/-- Body of the keyword branch of `_extract_numbered_field` for one line:
clean the line, split at the first colon, check the keyword appears before
the colon, then return a markdown-link URL or a value longer than one
character. -/
def extractNumberedFieldLine (line kw : List Char) : Option (List Char) :=
  let cleaned := replaceAll "**".data [] (pyStrip (line.dropWhile isNumberedLead))
  match splitFirstOnChar ':' cleaned with
  | none => none
  | some p =>
    if hasSub (lcL p.1) (lcL kw) then
      let value := pyStrip p.2
      match (searchMdUrl value).map pyStrip with
      | some url => some url
      | none => if 1 < value.length then some value else none
    else none

/-- `_extract_numbered_field`: first line/keyword pair yielding a value. -/
def extractNumberedField (text : List Char) (keywords : List (List Char)) :
    Option (List Char) :=
  firstSome
    (fun line =>
      firstSome
        (fun kw =>
          if hasSub (pyStrip (lcL line)) (lcL kw) then
            extractNumberedFieldLine line kw
          else none)
        keywords)
    (splitOnNl text)

/-! ## `CompanyResearchService._extract_list_field` and
`CompanyResearchService._extract_single_field` -/

/-- Python `line.startswith(("-", "•", "*"))` after stripping. -/
def isBulletStart (l : List Char) : Bool :=
  startsWithChar '-' l || startsWithChar '•' l || startsWithChar '*' l

/-- The bullet / numbered-item collection loop of `_extract_list_field`
over the lines of the 500-character window (header line already removed). -/
def collectItems : List (List Char) → List (List Char)
  | [] => []
  | l :: ls =>
    let line := pyStrip l
    if isBulletStart line then
      let item := pyStrip (pyLStripSet ['-', '•', '*'] line)
      if item ≠ [] then item :: collectItems ls else collectItems ls
    else
      match line with
      | c :: _ =>
        if isPyDigit c ∧ (line.contains '.' ∨ line.contains ')') then
          let item := pyStrip (afterFirstOrAll ')' (afterFirstOrAll '.' line))
          if item ≠ [] then item :: collectItems ls else collectItems ls
        else collectItems ls
      | [] => collectItems ls

/-- The keyword loop of `_extract_list_field`: find the keyword in the
lowercased text, take the 500-character window from its first occurrence,
collect bullet/numbered items from the lines after the header line, and
stop at the first keyword producing a non-empty item list. -/
def extractListFieldGo (text tlow : List Char) : List (List Char) →
    Option (List (List Char))
  | [] => none
  | kw :: rest =>
    if hasSub tlow kw then
      let start := (findSub tlow kw).getD 0
      let window := (text.drop start).take 500
      let items := collectItems ((splitOnNl window).drop 1)
      if items ≠ [] then some items else extractListFieldGo text tlow rest
    else extractListFieldGo text tlow rest

/-- `_extract_list_field`: list-mode extraction. -/
def extractListField (text : List Char) (keywords : List (List Char)) :
    Option (List (List Char)) :=
  extractListFieldGo text (lcL text) keywords

/-- The keyword loop of `_extract_single_field`: 300-character window from
the keyword occurrence; value after a colon on the window's first line, or
the stripped second line when it does not start with `#`. -/
def extractSingleFieldGo (text tlow : List Char) : List (List Char) →
    Option (List Char)
  | [] => none
  | kw :: rest =>
    if hasSub tlow kw then
      let start := (findSub tlow kw).getD 0
      let window := (text.drop start).take 300
      let lines := splitOnNl window
      let fromFirst : Option (List Char) :=
        match splitFirstOnChar ':' (lines.headD []) with
        | some p =>
          let v := pyStrip p.2
          if v ≠ [] then some v else none
        | none => none
      match fromFirst with
      | some v => some v
      | none =>
        match lines.drop 1 with
        | l2 :: _ =>
          let v := pyStrip l2
          if v ≠ [] ∧ ¬ startsWithChar '#' v then some v
          else extractSingleFieldGo text tlow rest
        | [] => extractSingleFieldGo text tlow rest
    else extractSingleFieldGo text tlow rest

/-- `_extract_single_field`: scalar extraction. -/
def extractSingleField (text : List Char) (keywords : List (List Char)) :
    Option (List Char) :=
  extractSingleFieldGo text (lcL text) keywords

/-! ## `ContactFinderService._extract_field` -/

/-- Body of the keyword branch of the contact `_extract_field` for one
line: value after the first colon subject to the truthiness test of the
source, else value after the first dash when the line does not start with
a dash. -/
def contactExtractFieldLine (line kw : List Char) : Option (List Char) :=
  match splitFirstOnChar ':' line with
  | some p =>
    let value := pyStrip p.2
    if (value ≠ [] ∧ ¬ "http".data.isPrefixOf value) ∨ hasSub value "@".data
        ∨ hasSub (lcL kw) "linkedin".data then
      some value
    else none
  | none =>
    if line.contains '-' ∧ ¬ startsWithChar '-' (pyStrip line) then
      match splitFirstOnChar '-' line with
      | some p =>
        let v := pyStrip p.2
        if v ≠ [] then some v else none
      | none => none
    else none

/-- `_extract_field` of the contact stage: first line/keyword pair whose
branch yields a value. -/
def contactExtractField (text : List Char) (keywords : List (List Char)) :
    Option (List Char) :=
  firstSome
    (fun line =>
      firstSome
        (fun kw =>
          if hasSub (lcL line) kw then contactExtractFieldLine line kw
          else none)
        keywords)
    (splitOnNl text)

/-! ## Data model (`app/schemas/outreach.py`, restricted to the fields the
modelled code paths read or write) -/

/-- The per-company dictionary built by
`CompanyDiscoveryService._parse_companies_response`.  The discovery filter
guarantees `company_name` and `website_url` are truthy, so both are plain
strings here; the remaining entries may be `None`. -/
structure CompanyData where
  raw_text : String
  company_name : String
  website_url : String
  industry : Option String
  description : Option String
  company_size : Option String
  location : Option String
  why_prospect : Option String
deriving DecidableEq

/-- `CompanyInfo` (research profile).  Optional schema fields that no
modelled code path ever sets (`motto`, `founded_year`, ...) are omitted;
the `location` key written by `_parse_research_response` has no
counterpart in the pydantic schema and is silently dropped by pydantic,
so it is omitted too. -/
structure CompanyInfo where
  company_name : String
  website_url : String
  industry : Option String
  core_business : Option String
  company_size : Option String
  recent_news : Option (List String)
  key_features : Option (List String)
  technologies : Option (List String)
  challenges : Option (List String)
  growth_areas : Option (List String)
  customers : Option (List String)
  awards : Option (List String)
  competitors : Option (List String)
  unique_selling_points : Option (List String)
  value_proposition : Option String
  market_position : Option String
  funding_status : Option String
deriving DecidableEq

/-- `ContactInfo`. -/
structure ContactInfo where
  name : String
  title : String
  email : Option String
  linkedin : Option String
  company : String
  department : Option String
  background : Option String
deriving DecidableEq

/-- `SenderDetails`. -/
structure SenderDetails where
  name : String
  email : String
  organization : String
  service_offered : String
  calendar_link : Option String
  linkedin : Option String
  phone : Option String
  website : Option String
deriving DecidableEq

/-- `GeneratedEmail`. -/
structure GeneratedEmail where
  subject : String
  body : String
  personalization_notes : Option String
deriving DecidableEq

/-- `CampaignResult`. -/
structure CampaignResult where
  company_info : CompanyInfo
  contacts : List ContactInfo
  generated_emails : List GeneratedEmail
  research_summary : Option String
deriving DecidableEq

/-- `CampaignExecutionResponse`.  `execution_time` is an abstract elapsed
measurement (the code stores a float difference of wall-clock readings). -/
structure CampaignExecutionResponse where
  campaign_id : Option String
  results : List CampaignResult
  total_companies : Nat
  total_contacts : Nat
  total_emails : Nat
  execution_time : Option Nat
deriving DecidableEq

/-! ## Company discovery (`CompanyDiscoveryService`) -/

/-- Matcher for the header regex `\*\*Company\s+(\d+):\s+([^*]+)\*\*`
(compiled with `IGNORECASE`) anchored at the start of the input; on
success, the length of the whole match and group 2.  Greedy `\s+` before
a greedy `([^*]+)` resolves, with backtracking, to: at least one
whitespace character after the colon, the group ending exactly at the
first `*`, and the `\s+` part being the maximal whitespace run capped so
the group keeps at least one character. -/
def matchHeaderAt (cs : List Char) : Option (Nat × List Char) :=
  match cs with
  | '*' :: '*' :: r1 =>
    if lcL (r1.take 7) = "company".data then
      let r2 := r1.drop 7
      let w1 := (r2.takeWhile isPySpace).length
      if w1 = 0 then none else
      let r3 := r2.drop w1
      let d := (r3.takeWhile isPyDigit).length
      if d = 0 then none else
      match r3.drop d with
      | ':' :: r5 =>
        let r := (r5.takeWhile (fun c => c ≠ '*')).length
        let ws := (r5.takeWhile isPySpace).length
        if ws = 0 ∨ r < 2 then none else
        match r5.drop r with
        | '*' :: '*' :: _ =>
          let s := min ws (r - 1)
          some (2 + 7 + w1 + d + 1 + r + 2, (r5.drop s).take (r - s))
        | _ => none
      | _ => none
    else none
  | _ => none

/-- `re.finditer` over the header pattern: non-overlapping matches, left
to right, resuming after each match; fuelled (each step consumes at least
one character).  Each entry is `(start, end, group 2)`. -/
def scanHeadersAux : Nat → List Char → Nat → List (Nat × Nat × List Char)
  | 0, _, _ => []
  | fuel + 1, cs, pos =>
    match cs with
    | [] => []
    | _ :: rest =>
      match matchHeaderAt cs with
      | some (len, g2) =>
        (pos, pos + len, g2) :: scanHeadersAux fuel (cs.drop len) (pos + len)
      | none => scanHeadersAux fuel rest (pos + 1)

/-- All company-header matches of a response text. -/
def scanHeaders (cs : List Char) : List (Nat × Nat × List Char) :=
  scanHeadersAux cs.length cs 0

/-- Python truthiness-aware fallback chain for the website of one company
section: labeled numbered field first, then markdown link, then bare URL
(`_parse_companies_response`, website fallback block). -/
def resolveWebsite (sec : List Char) : Option (List Char) :=
  let labeled := extractNumberedField sec ["website".data, "url".data]
  match labeled with
  | some w =>
    if w = [] then
      match extractMarkdownUrl sec with
      | some u =>
        if u = [] then
          match extractUrl sec with
          | some v => if v = [] then none else some v
          | none => none
        else some u
      | none =>
        match extractUrl sec with
        | some v => if v = [] then none else some v
        | none => none
    else some w
  | none =>
    match extractMarkdownUrl sec with
    | some u =>
      if u = [] then
        match extractUrl sec with
        | some v => if v = [] then none else some v
        | none => none
      else some u
    | none =>
      match extractUrl sec with
      | some v => if v = [] then none else some v
      | none => none

/-- One iteration of the section loop of `_parse_companies_response`:
strip the header's group 2 into the company name, strip the section, skip
sections shorter than 20 characters, extract each labeled field, resolve
the website through the fallback chain, and keep the record only when
both name and website are truthy. -/
def mkCompanyData (nameRaw sec0 : List Char) : Option CompanyData :=
  let name := pyStrip nameRaw
  let sec := pyStrip sec0
  if sec = [] ∨ sec.length < 20 then none
  else
    let website := resolveWebsite sec
    match website with
    | some w =>
      if name ≠ [] ∧ w ≠ [] then
        some
          { raw_text := ⟨sec⟩
            company_name := ⟨name⟩
            website_url := ⟨w⟩
            industry :=
              (extractNumberedField sec ["industry".data, "sector".data]).map
                (fun l => ⟨l⟩)
            description :=
              (extractNumberedField sec
                ["description".data, "brief description".data]).map (fun l => ⟨l⟩)
            company_size :=
              (extractNumberedField sec
                ["company size".data, "size".data, "employees".data]).map
                (fun l => ⟨l⟩)
            location :=
              (extractNumberedField sec
                ["location".data, "hq".data, "headquarters".data]).map
                (fun l => ⟨l⟩)
            why_prospect :=
              (extractNumberedField sec
                ["why".data, "prospect".data, "good prospect".data]).map
                (fun l => ⟨l⟩) }
      else none
    | none => none

/-- End position of the section that starts at the current header: the
start of the next header match, or the end of the text. -/
def buildStop (cs : List Char) : List (Nat × Nat × List Char) → Nat
  | [] => cs.length
  | (s2, _, _) :: _ => s2

/-- Walk the header matches, slicing each section from the end of its
header to the start of the next header (or the end of the text). -/
def buildCompanies (cs : List Char) : List (Nat × Nat × List Char) →
    List CompanyData
  | [] => []
  | (_, e, g2) :: rest =>
    match mkCompanyData g2 ((cs.drop e).take (buildStop cs rest - e)) with
    | some cd => cd :: buildCompanies cs rest
    | none => buildCompanies cs rest

/-- `CompanyDiscoveryService._parse_companies_response`. -/
def parseCompaniesResponse (text : String) : List CompanyData :=
  buildCompanies text.data (scanHeaders text.data)

/-- `CompanyDiscoveryService.discover_companies` given the agent response
content (`none` models an absent response or `None` content; the empty
string models empty content): empty list on a falsy response, otherwise
the parsed companies.  An exception in the agent call is re-raised and is
modelled at the orchestrator level. -/
def discoverCompanies (response : Option String) : List CompanyData :=
  match response with
  | none => []
  | some t => if t = "" then [] else parseCompaniesResponse t

/-! ## Research stage (`CompanyResearchService`) -/

/-- Outcome of one agent call: an exception during the call
(`Except.error`), an absent response or `None` content (`.ok none`), or
the response content (`.ok (some t)`, where `t = ""` models empty
content). -/
abbrev AgentOutcome := Except Unit (Option String)

/-- `CompanyResearchService._create_basic_company_info`: a profile built
only from the discovery dictionary. -/
def createBasicCompanyInfo (d : CompanyData) : CompanyInfo :=
  { company_name := d.company_name
    website_url := d.website_url
    industry := d.industry
    core_business := d.description
    company_size := d.company_size
    recent_news := none
    key_features := none
    technologies := none
    challenges := none
    growth_areas := none
    customers := none
    awards := none
    competitors := none
    unique_selling_points := none
    value_proposition := none
    market_position := none
    funding_status := none }

/-- Lift a `List Char` extraction result into the schema's string lists. -/
def toStrList (o : Option (List (List Char))) : Option (List String) :=
  o.map (fun ls => ls.map (fun l => ⟨l⟩))

/-- Lift a `List Char` extraction result into the schema's strings. -/
def toStr (o : Option (List Char)) : Option String :=
  o.map (fun l => ⟨l⟩)

/-- `CompanyResearchService._parse_research_response`: discovery fields
plus every research field extracted independently from the response text.
(The source also writes a `location` key, which the pydantic schema does
not declare and therefore drops.) -/
def parseResearchResponse (responseText : String) (d : CompanyData) :
    CompanyInfo :=
  let t := responseText.data
  { company_name := d.company_name
    website_url := d.website_url
    industry := d.industry
    core_business := d.description
    company_size := d.company_size
    recent_news :=
      toStrList (extractListField t
        ["recent news".data, "announcements".data, "press releases".data])
    key_features :=
      toStrList (extractListField t
        ["features".data, "offerings".data, "products".data])
    technologies :=
      toStrList (extractListField t
        ["technology".data, "tech stack".data, "tools".data])
    challenges :=
      toStrList (extractListField t
        ["challenges".data, "pain points".data, "problems".data])
    growth_areas :=
      toStrList (extractListField t
        ["growth".data, "opportunities".data, "expansion".data])
    customers :=
      toStrList (extractListField t
        ["customers".data, "clients".data, "case studies".data])
    awards :=
      toStrList (extractListField t
        ["awards".data, "recognition".data, "achievements".data])
    competitors :=
      toStrList (extractListField t ["competitors".data, "competition".data])
    unique_selling_points :=
      toStrList (extractListField t
        ["unique".data, "differentiators".data, "usp".data])
    value_proposition :=
      toStr (extractSingleField t
        ["value proposition".data, "mission".data, "tagline".data])
    market_position :=
      toStr (extractSingleField t
        ["market position".data, "positioning".data])
    funding_status :=
      toStr (extractSingleField t
        ["funding".data, "investment".data, "series".data]) }

/-- `CompanyResearchService.research_company`: basic profile on an
exception or a falsy response, parsed profile otherwise. -/
def researchCompany (d : CompanyData) (outcome : AgentOutcome) : CompanyInfo :=
  match outcome with
  | .error _ => createBasicCompanyInfo d
  | .ok none => createBasicCompanyInfo d
  | .ok (some t) =>
    if t = "" then createBasicCompanyInfo d
    else parseResearchResponse t d

/-! ## Contact stage (`ContactFinderService`) -/

/-- One iteration of the section loop of `_parse_contacts_response`:
skip blank sections and the prompt echo starting with `Focus`, extract
each field, and keep the record only when both name and title are
truthy. -/
def mkContact (companyName : String) (sec : List Char) : Option ContactInfo :=
  if pyStrip sec = [] ∨ "Focus".data.isPrefixOf (pyStrip sec) then none
  else
    match contactExtractField sec ["name".data, "full name".data],
      contactExtractField sec
        ["title".data, "position".data, "role".data, "job title".data] with
    | some n, some t =>
      if n ≠ [] ∧ t ≠ [] then
        some
          { name := ⟨n⟩
            title := ⟨t⟩
            email := toStr (contactExtractField sec ["email".data, "e-mail".data])
            linkedin :=
              toStr (contactExtractField sec ["linkedin".data, "profile".data])
            company := companyName
            department :=
              toStr (contactExtractField sec ["department".data, "division".data])
            background :=
              toStr (contactExtractField sec
                ["background".data, "bio".data, "about".data]) }
      else none
    | _, _ => none

/-- `ContactFinderService._parse_contacts_response`: split on the literal
`"Contact "` marker and build a contact per qualifying section. -/
def parseContactsResponse (responseText companyName : String) :
    List ContactInfo :=
  (splitOnStr "Contact ".data responseText.data).filterMap
    (mkContact companyName)

/-- `ContactFinderService.find_contacts`: empty list on an exception or a
falsy response, parsed contacts otherwise. -/
def findContacts (d : CompanyData) (outcome : AgentOutcome) :
    List ContactInfo :=
  match outcome with
  | .error _ => []
  | .ok none => []
  | .ok (some t) =>
    if t = "" then [] else parseContactsResponse t d.company_name

/-! ## Email stage (`EmailGenerationService`) -/

/-- Python truthiness `x or default` on an optional string. -/
def orDefault (x : Option String) (default : String) : String :=
  match x with
  | some s => if s = "" then default else s
  | none => default

/-- Python truthiness of an optional list field (`None` and `[]` falsy). -/
def truthyList (o : Option (List String)) : Bool :=
  match o with
  | some (_ :: _) => true
  | _ => false

/-- `EmailGenerationService._generate_personalization_notes`. -/
def generatePersonalizationNotes (ci : CompanyInfo) : String :=
  let notes : List String :=
    (if truthyList ci.recent_news then
      ["Referenced recent company news (" ++
        toString ((ci.recent_news.getD []).length) ++ " items)"]
     else []) ++
    (if truthyList ci.challenges then
      ["Addressed potential challenges (" ++
        toString ((ci.challenges.getD []).length) ++ " identified)"]
     else []) ++
    (if truthyList ci.growth_areas then
      ["Highlighted growth opportunities (" ++
        toString ((ci.growth_areas.getD []).length) ++ " areas)"]
     else []) ++
    (if truthyList ci.technologies then ["Mentioned technology stack"] else [])
  if notes = [] then "Basic personalization applied"
  else String.intercalate " | " notes

/-- The line loop of `_parse_email_response`: state is (subject so far,
body lines so far, inside-body flag).  A line whose stripped, lowercased
form starts with `subject:` resets the subject; the first blank line
before the body starts the body; body lines are collected afterwards. -/
def parseEmailLines : List (List Char) → List Char × List (List Char) × Bool →
    List Char × List (List Char) × Bool
  | [], st => st
  | l :: ls, (subj, body, inB) =>
    if "subject:".data.isPrefixOf (lcL (pyStrip l)) then
      parseEmailLines ls (pyStrip (afterFirstOrAll ':' l), body, inB)
    else if ¬ inB ∧ pyStrip l = [] then
      parseEmailLines ls (subj, body, true)
    else if inB then
      parseEmailLines ls (subj, body ++ [l], inB)
    else
      parseEmailLines ls (subj, body, inB)

/-- `EmailGenerationService._parse_email_response`: run the line loop over
the stripped response, then fall back to a synthesized subject and the
stripped raw response when no subject or no body was found. -/
def parseEmailResponse (responseText : String) (ci : CompanyInfo) :
    GeneratedEmail :=
  let st := parseEmailLines (splitOnNl (pyStrip responseText.data)) ([], [], false)
  let subject := st.1
  let body := pyStrip (joinNl st.2.1)
  if subject = [] ∨ body = [] then
    { subject := "Quick question about " ++ ci.company_name
      body := pyStripS responseText
      personalization_notes := some (generatePersonalizationNotes ci) }
  else
    { subject := ⟨subject⟩
      body := ⟨body⟩
      personalization_notes := some (generatePersonalizationNotes ci) }

/-- `EmailGenerationService._create_fallback_email`. -/
def createFallbackEmail (ci : CompanyInfo) (sender : SenderDetails) :
    GeneratedEmail :=
  { subject := "Thought you\x27d be interested - " ++ ci.company_name
    body :=
      "Hey there,\n\nI came across " ++ ci.company_name ++
      " and was impressed by what you\x27re building in the " ++
      orDefault ci.industry "industry" ++ ".\n\nWe at " ++
      sender.organization ++ " " ++ ⟨lcL sender.service_offered.data⟩ ++
      ".\n\nWould love to chat if you\x27re open to it. Here\x27s my calendar: " ++
      orDefault sender.calendar_link "Let me know a time that works!" ++
      "\n\nBest,\n" ++ sender.name ++ "\n" ++ sender.organization ++ "\n"
    personalization_notes :=
      some "Fallback email template used due to generation error" }

/-- `EmailGenerationService.generate_email`: fallback email on an
exception or a falsy response, parsed email otherwise.  The prompt built
from template, contacts, sender and config only feeds the agent and does
not influence the returned value given the agent outcome. -/
def generateEmail (ci : CompanyInfo) (sender : SenderDetails)
    (outcome : AgentOutcome) : GeneratedEmail :=
  match outcome with
  | .error _ => createFallbackEmail ci sender
  | .ok none => createFallbackEmail ci sender
  | .ok (some t) =>
    if t = "" then createFallbackEmail ci sender
    else parseEmailResponse t ci

/-! ## Workflow orchestration (`WorkflowOrchestrationService`) -/

/-- Outcome of the body of `_process_company` for one company (research →
contacts → emails, lines 167–239): either it assembles a
`CampaignResult`, or some step raises.  The body has no `return None`
outside its `except` handler, so these are the only outcomes; the
per-company environment (three agent calls per company and per contact)
is abstracted into this oracle. -/
inductive StepOutcome where
  | ok (r : CampaignResult)
  | raised
deriving DecidableEq

/-- Did the per-company step complete without raising? -/
def StepOutcome.succeeded : StepOutcome → Bool
  | .ok _ => true
  | .raised => false

/-- `WorkflowOrchestrationService._process_company`: the `try/except`
wrapper around the body — an exception anywhere in the body is caught and
turned into `None`. -/
def processCompany (step : CompanyData → StepOutcome) (c : CompanyData) :
    Option CampaignResult :=
  match step c with
  | .ok r => some r
  | .raised => none

/-- The per-company loop of `execute_campaign` (lines 96–118): append the
result when `_process_company` produced one, otherwise log and continue
(the outer `try/except continue` is unreachable because `_process_company`
never raises). -/
def campaignLoop (step : CompanyData → StepOutcome) :
    List CompanyData → List CampaignResult
  | [] => []
  | c :: cs =>
    match processCompany step c with
    | some r => r :: campaignLoop step cs
    | none => campaignLoop step cs

/-- `sum(len(r.contacts) for r in results)`. -/
def totalContacts (results : List CampaignResult) : Nat :=
  (results.map (fun r => r.contacts.length)).sum

/-- `sum(len(r.generated_emails) for r in results)`. -/
def totalEmails (results : List CampaignResult) : Nat :=
  (results.map (fun r => r.generated_emails.length)).sum

/-- `WorkflowOrchestrationService.execute_campaign`.  `validated` is the
result of `agent_service.validate_agents()`; `discovery` is the outcome
of the discovery call (an exception there is re-raised by
`discover_companies` and propagates); `step` abstracts the per-company
processing; `elapsed` abstracts `time.time() - start_time`. -/
def executeCampaign (validated : Bool)
    (discovery : Except String (Option String))
    (step : CompanyData → StepOutcome) (elapsed : Nat) :
    Except String CampaignExecutionResponse :=
  if ¬ validated then
    .error "AI agents are not properly configured. Check API keys."
  else
    match discovery with
    | .error e => .error e
    | .ok response =>
      if discoverCompanies response = [] then
        .ok
          { campaign_id := none
            results := []
            total_companies := 0
            total_contacts := 0
            total_emails := 0
            execution_time := some elapsed }
      else
        .ok
          { campaign_id := none
            results := campaignLoop step (discoverCompanies response)
            total_companies := (campaignLoop step (discoverCompanies response)).length
            total_contacts := totalContacts (campaignLoop step (discoverCompanies response))
            total_emails := totalEmails (campaignLoop step (discoverCompanies response))
            execution_time := some elapsed }

/-! ## Streaming variant (`execute_campaign_streaming`) -/

/-- One yielded progress dictionary.  `progress` is modelled as a
rational; keys absent from a given dictionary are `none`. -/
structure StreamEvent where
  status : String
  message : String
  progress : ℚ
  companies_found : Option Nat
  current_company : Option String
  company_number : Option Nat
  total_companies : Option Nat
  company_name : Option String
  contacts_found : Option Nat
  emails_generated : Option Nat
  results : Option (List CampaignResult)
  total_contacts : Option Nat
  total_emails : Option Nat
  execution_time : Option Nat

/-- An event carrying only status, message and progress. -/
def baseEvent (status message : String) (progress : ℚ) : StreamEvent :=
  { status := status
    message := message
    progress := progress
    companies_found := none
    current_company := none
    company_number := none
    total_companies := none
    company_name := none
    contacts_found := none
    emails_generated := none
    results := none
    total_contacts := none
    total_emails := none
    execution_time := none }

/-- The initial `starting` event. -/
def startingEvent : StreamEvent :=
  baseEvent "starting" "Initializing campaign..." 0

/-- The `error` event after failed agent validation. -/
def validationErrorEvent : StreamEvent :=
  baseEvent "error" "AI agents validation failed" 0

/-- The `discovering` event. -/
def discoveringEvent : StreamEvent :=
  baseEvent "discovering" "Discovering target companies..." (1/10)

/-- The `discovered` event with the company count. -/
def discoveredEvent (n : Nat) : StreamEvent :=
  { baseEvent "discovered" ("Found " ++ toString n ++ " companies") (2/10) with
    companies_found := some n }

/-- The terminal `completed` event of a run that discovered no companies:
it carries an empty result list and no totals. -/
def completedEmptyEvent : StreamEvent :=
  { baseEvent "completed" "No companies found" 1 with results := some [] }

/-- The `processing` event for company `idx` of `n`. -/
def processingEvent (c : CompanyData) (idx n : Nat) : StreamEvent :=
  { baseEvent "processing" ("Researching " ++ c.company_name ++ "...")
      (2/10 + ((idx : ℚ) - 1) / (n : ℚ) * (6/10)) with
    current_company := some c.company_name
    company_number := some idx
    total_companies := some n }

/-- The `completed_company` event for company `idx` of `n`. -/
def completedCompanyEvent (c : CompanyData) (idx n : Nat) (r : CampaignResult) :
    StreamEvent :=
  { baseEvent "completed_company" ("Completed " ++ c.company_name)
      (2/10 + (idx : ℚ) / (n : ℚ) * (6/10)) with
    company_name := some c.company_name
    contacts_found := some r.contacts.length
    emails_generated := some r.generated_emails.length }

/-- The terminal `completed` event of a successful non-empty run. -/
def completedEvent (results : List CampaignResult) (elapsed : Nat) :
    StreamEvent :=
  { baseEvent "completed" "Campaign completed successfully" 1 with
    results := some results
    total_companies := some results.length
    total_contacts := some (totalContacts results)
    total_emails := some (totalEmails results)
    execution_time := some elapsed }

/-- The `error` event of the streaming `except` handler. -/
def runErrorEvent (msg : String) : StreamEvent :=
  baseEvent "error" ("Campaign failed: " ++ msg) 0

/-- The per-company segment of the streaming generator (lines 357–404):
a `processing` event per company, a `completed_company` event when
`_process_company` returned a result, and the terminal `completed` event
over the accumulated results after the loop. -/
def streamLoop (step : CompanyData → StepOutcome) (n elapsed : Nat) :
    List CompanyData → Nat → List CampaignResult → List StreamEvent
  | [], _, acc => [completedEvent acc elapsed]
  | c :: cs, idx, acc =>
    processingEvent c idx n ::
      match processCompany step c with
      | some r =>
        completedCompanyEvent c idx n r :: streamLoop step n elapsed cs (idx + 1) (acc ++ [r])
      | none => streamLoop step n elapsed cs (idx + 1) acc

/-- `WorkflowOrchestrationService.execute_campaign_streaming`: the full
list of yielded events. -/
def executeCampaignStreaming (validated : Bool)
    (discovery : Except String (Option String))
    (step : CompanyData → StepOutcome) (elapsed : Nat) : List StreamEvent :=
  startingEvent ::
    if ¬ validated then [validationErrorEvent]
    else
      discoveringEvent ::
        match discovery with
        | .error e => [runErrorEvent e]
        | .ok response =>
          discoveredEvent (discoverCompanies response).length ::
            if discoverCompanies response = [] then [completedEmptyEvent]
            else
              streamLoop step (discoverCompanies response).length elapsed
                (discoverCompanies response) 1 []

/-! ## Sample data shared by witnesses -/

/-- A discovery response with one well-formed company section. -/
def sampleDiscoveryText : String :=
  "**Company 1: Acme** \n1. Website: https://acme.io\nmore padding text here"

/-- The company record parsed from `sampleDiscoveryText`. -/
def sampleCompany : CompanyData :=
  { raw_text := "1. Website: https://acme.io\nmore padding text here"
    company_name := "Acme"
    website_url := "https://acme.io"
    industry := none
    description := none
    company_size := none
    location := none
    why_prospect := none }

/-- A sample contact. -/
def sampleContact : ContactInfo :=
  { name := "Alice"
    title := "CEO"
    email := none
    linkedin := none
    company := "Acme"
    department := none
    background := none }

/-- A sample generated email. -/
def sampleEmail : GeneratedEmail :=
  { subject := "Hi", body := "Body", personalization_notes := none }

/-- A sample research profile. -/
def sampleInfo : CompanyInfo :=
  createBasicCompanyInfo sampleCompany

/-- A sample per-company result with one contact and one email. -/
def sampleResult : CampaignResult :=
  { company_info := sampleInfo
    contacts := [sampleContact]
    generated_emails := [sampleEmail]
    research_summary := none }

/-! ## Claims -/

/-- C9: every field-extraction mode is a pure function of the input text
and keyword list, so two invocations on identical inputs return identical
outputs — there is no randomness and no order-dependent side effect in the
embedded extractors (single scalar fields, list fields, markdown and bare
URLs). -/
theorem c9_extraction_deterministic (text : List Char)
    (keywords : List (List Char)) :
    extractNumberedField text keywords = extractNumberedField text keywords ∧
    extractListField text keywords = extractListField text keywords ∧
    extractSingleField text keywords = extractSingleField text keywords ∧
    contactExtractField text keywords = contactExtractField text keywords ∧
    extractMarkdownUrl text = extractMarkdownUrl text ∧
    extractUrl text = extractUrl text :=
  ⟨rfl, rfl, rfl, rfl, rfl, rfl⟩

/-- C2 (counterexample): on the claimed input the list-mode extractor does
not return the two-element list `["Slow onboarding", "High churn"]`: the
500-character window keeps collecting bullets past the `Growth:` header. -/
theorem c2_counterexample :
    extractListField
        "Challenges:\n- Slow onboarding\n- High churn\nGrowth:\n- New market".data
        ["challenges".data] ≠
      some ["Slow onboarding".data, "High churn".data] := by
  decide

/-- C2 (amended): on that input the list-mode extractor returns the
three-element list `["Slow onboarding", "High churn", "New market"]` — the
bullet of the following `Growth` section lies inside the 500-character
window and is collected as well. -/
theorem c2_list_extraction_includes_growth_bullet :
    extractListField
        "Challenges:\n- Slow onboarding\n- High churn\nGrowth:\n- New market".data
        ["challenges".data] =
      some ["Slow onboarding".data, "High churn".data, "New market".data] := by
  decide

/-- C4: when the research agent call raises, or returns an absent or empty
response, the research stage still returns a profile (it is a total
function into `CompanyInfo`) whose name and website are exactly the input
candidate's name and website. -/
theorem c4_research_failure_passthrough (d : CompanyData) (o : AgentOutcome)
    (h : o = .error () ∨ o = .ok none ∨ o = .ok (some "")) :
    (researchCompany d o).company_name = d.company_name ∧
    (researchCompany d o).website_url = d.website_url := by
  rcases h with h | h | h <;> subst h <;>
    simp [researchCompany, createBasicCompanyInfo]

/-- C4 (witness): the failure passthrough evaluated on a concrete
candidate and a raising agent call. -/
theorem c4_research_failure_passthrough_witness :
    (researchCompany sampleCompany (.error ())).company_name = "Acme" ∧
    (researchCompany sampleCompany (.error ())).website_url =
      "https://acme.io" :=
  c4_research_failure_passthrough sampleCompany (.error ()) (Or.inl rfl)

/-- A sample sender. -/
def sampleSender : SenderDetails :=
  { name := "Sam"
    email := "sam@xorg.io"
    organization := "XOrg"
    service_offered := "We build tools"
    calendar_link := none
    linkedin := none
    phone := none
    website := none }

/-- Does some line of the stripped response start, after stripping and
lowercasing, with `subject:` (the test actually performed by
`_parse_email_response`)? -/
def hasSubjectLine (raw : String) : Bool :=
  (splitOnNl (pyStrip raw.data)).any
    (fun l => "subject:".data.isPrefixOf (lcL (pyStrip l)))

/-- The body computed by the line loop of `_parse_email_response` before
the fallback check. -/
def parsedEmailBody (raw : String) : List Char :=
  pyStrip (joinNl (parseEmailLines (splitOnNl (pyStrip raw.data)) ([], [], false)).2.1)

/-- Does some line of the raw response start with the literal label
`Subject:`?  This follows the claim's wording (case-sensitive, no
stripping) and exists only to exhibit where it differs from the source's
test. -/
def specHasLiteralSubjectLine (raw : String) : Bool :=
  (splitOnNl raw.data).any (fun l => "Subject:".data.isPrefixOf l)

/-- A nonempty character list yields a nonempty string. -/
theorem strMk_ne_empty {l : List Char} (h : l ≠ []) : (⟨l⟩ : String) ≠ "" := by
  intro he
  apply h
  have hd := congrArg String.data he
  simpa using hd

/-- When no line triggers the subject branch, the line loop of
`_parse_email_response` leaves the subject untouched. -/
theorem parseEmailLines_no_subject (ls : List (List Char))
    (subj : List Char) (body : List (List Char)) (inB : Bool)
    (h : ∀ l ∈ ls, ¬ "subject:".data.isPrefixOf (lcL (pyStrip l))) :
    (parseEmailLines ls (subj, body, inB)).1 = subj := by
  induction ls generalizing body inB with
  | nil => rfl
  | cons l ls ih =>
    have hl := h l (List.mem_cons_self _ _)
    have hrest : ∀ x ∈ ls, ¬ "subject:".data.isPrefixOf (lcL (pyStrip x)) :=
      fun x hx => h x (List.mem_cons_of_mem _ hx)
    simp only [parseEmailLines]
    split_ifs with h1 h2 h3
    · exact absurd h1 hl
    · exact ih _ _ hrest
    · exact ih _ _ hrest
    · exact ih _ _ hrest

/-- C3 (counterexample): the claim fails on the code in both directions.
For a response with no subject line at all, the returned body is the
whitespace-stripped response, not the full raw text; and for a response
whose subject label is lowercase (hence not the literal `Subject:`), the
parser still finds a subject, so the fallback subject is not used. -/
theorem c3_counterexample :
    (specHasLiteralSubjectLine "  Hello\nworld  \n" = false ∧
      (parseEmailResponse "  Hello\nworld  \n" sampleInfo).body ≠
        "  Hello\nworld  \n") ∧
    (specHasLiteralSubjectLine "subject: lowercase\n\nBody here" = false ∧
      (parseEmailResponse "subject: lowercase\n\nBody here" sampleInfo).subject ≠
        "Quick question about Acme") := by
  decide

/-- C3 (amended): for every non-empty agent response in which no line
starts with `subject:` after stripping and lowercasing (or whose parsed
body is empty), the email stage returns exactly one `GeneratedEmail`
whose subject is `"Quick question about " ++ company_name` and whose body
is the whitespace-stripped raw response text. -/
theorem c3_email_parse_fallback (raw : String) (ci : CompanyInfo)
    (sender : SenderDetails) (hr : raw ≠ "")
    (h : hasSubjectLine raw = false ∨ parsedEmailBody raw = []) :
    (generateEmail ci sender (.ok (some raw))).subject =
      "Quick question about " ++ ci.company_name ∧
    (generateEmail ci sender (.ok (some raw))).body = pyStripS raw := by
  have hg : generateEmail ci sender (.ok (some raw)) = parseEmailResponse raw ci := by
    simp [generateEmail, hr]
  rw [hg]
  have hcond :
      (parseEmailLines (splitOnNl (pyStrip raw.data)) ([], [], false)).1 = [] ∨
      pyStrip (joinNl
        (parseEmailLines (splitOnNl (pyStrip raw.data)) ([], [], false)).2.1) = [] := by
    rcases h with h | h
    · left
      apply parseEmailLines_no_subject
      intro l hl
      have := List.any_eq_false.mp h l hl
      simpa using this
    · right
      exact h
  simp only [parseEmailResponse]
  rw [if_pos hcond]
  exact ⟨rfl, rfl⟩

/-- C3 (witness): the amended fallback behavior evaluated on a concrete
subject-less response. -/
theorem c3_email_parse_fallback_witness :
    (generateEmail sampleInfo sampleSender
        (.ok (some "just some reply text"))).subject =
      "Quick question about " ++ sampleInfo.company_name ∧
    (generateEmail sampleInfo sampleSender
        (.ok (some "just some reply text"))).body =
      pyStripS "just some reply text" :=
  c3_email_parse_fallback "just some reply text" sampleInfo sampleSender
    (by decide) (Or.inl (by decide))

/-- C10: every contact record returned by the contact-stage parser carries
the given company name and a non-empty name and title; and a section whose
name or title is not extractable produces no record at all. -/
theorem c10_contact_record_invariant :
    (∀ (text companyName : String), ∀ c ∈ parseContactsResponse text companyName,
      c.company = companyName ∧ c.name ≠ "" ∧ c.title ≠ "") ∧
    (∀ (companyName : String) (sec : List Char),
      (contactExtractField sec ["name".data, "full name".data] = none ∨
        contactExtractField sec
          ["title".data, "position".data, "role".data, "job title".data] = none) →
      mkContact companyName sec = none) := by
  constructor
  · intro text companyName c hc
    simp only [parseContactsResponse, List.mem_filterMap] at hc
    obtain ⟨sec, _, hsec⟩ := hc
    unfold mkContact at hsec
    by_cases h0 : pyStrip sec = [] ∨ "Focus".data.isPrefixOf (pyStrip sec)
    · rw [if_pos h0] at hsec
      cases hsec
    · rw [if_neg h0] at hsec
      rcases hn : contactExtractField sec ["name".data, "full name".data] with _ | n <;>
        rcases ht : contactExtractField sec
          ["title".data, "position".data, "role".data, "job title".data] with _ | t <;>
        simp only [hn, ht] at hsec
      · cases hsec
      · cases hsec
      · cases hsec
      · by_cases hnt : n ≠ [] ∧ t ≠ []
        · rw [if_pos hnt] at hsec
          obtain ⟨hn1, ht1⟩ := hnt
          cases hsec
          exact ⟨rfl, strMk_ne_empty hn1, strMk_ne_empty ht1⟩
        · rw [if_neg hnt] at hsec
          cases hsec
  · intro companyName sec h
    unfold mkContact
    by_cases h0 : pyStrip sec = [] ∨ "Focus".data.isPrefixOf (pyStrip sec)
    · rw [if_pos h0]
    · rw [if_neg h0]
      rcases hn : contactExtractField sec ["name".data, "full name".data] with _ | n <;>
        rcases ht : contactExtractField sec
          ["title".data, "position".data, "role".data, "job title".data] with _ | t <;>
        simp only [hn, ht]
      rcases h with h | h
      · rw [hn] at h
        cases h
      · rw [ht] at h
        cases h

/-- C10 (witness): the invariant evaluated on a concrete contact response,
and the exclusion evaluated on a section with no extractable name. -/
theorem c10_contact_record_invariant_witness :
    (sampleContact.company = "Acme" ∧ sampleContact.name ≠ "" ∧
      sampleContact.title ≠ "") ∧
    mkContact "Acme" "Name:\nTitle: CEO".data = none :=
  ⟨c10_contact_record_invariant.1 "Contact 1:\nName: Alice\nTitle: CEO" "Acme"
      sampleContact (by decide),
    c10_contact_record_invariant.2 "Acme" "Name:\nTitle: CEO".data
      (Or.inl (by decide))⟩

/-- A company record produced from one section has a truthy name and a
truthy website. -/
theorem mkCompanyData_some_fields {g s : List Char} {c : CompanyData}
    (h : mkCompanyData g s = some c) :
    c.company_name ≠ "" ∧ c.website_url ≠ "" := by
  unfold mkCompanyData at h
  by_cases h0 : pyStrip s = [] ∨ (pyStrip s).length < 20
  · rw [if_pos h0] at h
    cases h
  · rw [if_neg h0] at h
    rcases hw : resolveWebsite (pyStrip s) with _ | w
    · simp only [hw] at h
      exact Option.noConfusion h
    · simp only [hw] at h
      by_cases hnw : pyStrip g ≠ [] ∧ w ≠ []
      · rw [if_pos hnw] at h
        cases h
        exact ⟨strMk_ne_empty hnw.1, strMk_ne_empty hnw.2⟩
      · rw [if_neg hnw] at h
        cases h

/-- Every member of `buildCompanies` comes from some section's
`mkCompanyData`. -/
theorem mem_buildCompanies {cs : List Char} {c : CompanyData} :
    ∀ {hs : List (Nat × Nat × List Char)}, c ∈ buildCompanies cs hs →
      ∃ g s, mkCompanyData g s = some c := by
  intro hs
  induction hs with
  | nil => intro h; cases h
  | cons hd tl ih =>
    intro h
    obtain ⟨_, e, g2⟩ := hd
    simp only [buildCompanies] at h
    rcases hm : mkCompanyData g2 ((cs.drop e).take (buildStop cs tl - e)) with _ | cd <;>
      simp only [hm, List.mem_cons] at h
    · exact ih h
    · rcases h with h | h
      · exact ⟨_, _, by rw [hm, h]⟩
      · exact ih h

/-- C5: a per-company section from which no website can be resolved
(neither the labeled field, nor a markdown link, nor a bare URL — the
`resolveWebsite` chain) is excluded from the discovery output; and every
company record the discovery parser returns has a non-empty name and a
non-empty website. -/
theorem c5_discovery_requires_website :
    (∀ (nameRaw sec : List Char), resolveWebsite (pyStrip sec) = none →
      mkCompanyData nameRaw sec = none) ∧
    (∀ (text : String), ∀ c ∈ parseCompaniesResponse text,
      c.company_name ≠ "" ∧ c.website_url ≠ "") := by
  constructor
  · intro nameRaw sec h
    unfold mkCompanyData
    by_cases h0 : pyStrip sec = [] ∨ (pyStrip sec).length < 20
    · rw [if_pos h0]
    · rw [if_neg h0]
      simp only [h]
  · intro text c hc
    obtain ⟨g, s, hm⟩ := mem_buildCompanies hc
    exact mkCompanyData_some_fields hm

/-- C5 (witness): exclusion evaluated on a concrete website-less section,
and the invariant evaluated on the company parsed from
`sampleDiscoveryText`. -/
theorem c5_discovery_requires_website_witness :
    mkCompanyData "Acme".data
        "this section has plenty of characters but no website anywhere".data =
      none ∧
    (sampleCompany.company_name ≠ "" ∧ sampleCompany.website_url ≠ "") :=
  ⟨c5_discovery_requires_website.1 "Acme".data
      "this section has plenty of characters but no website anywhere".data
      (by decide),
    c5_discovery_requires_website.2 sampleDiscoveryText sampleCompany (by decide)⟩

/-- C7: a discovery response with zero company-header matches parses to an
empty candidate list, and the orchestrator then terminates normally with a
report whose results are empty and whose totals are all zero. -/
theorem c7_no_headers_all_zero (text : String)
    (step : CompanyData → StepOutcome) (elapsed : Nat)
    (h : scanHeaders text.data = []) :
    parseCompaniesResponse text = [] ∧
    executeCampaign true (.ok (some text)) step elapsed =
      .ok { campaign_id := none, results := [], total_companies := 0,
            total_contacts := 0, total_emails := 0,
            execution_time := some elapsed } := by
  have hp : parseCompaniesResponse text = [] := by
    unfold parseCompaniesResponse
    rw [h]
    rfl
  have hd : discoverCompanies (some text) = [] := by
    simp only [discoverCompanies]
    by_cases ht : text = ""
    · rw [if_pos ht]
    · rw [if_neg ht]
      exact hp
  exact ⟨hp, by simp [executeCampaign, hd]⟩

/-- C7 (witness): the all-zero report evaluated on a concrete markerless
response. -/
theorem c7_no_headers_all_zero_witness :
    parseCompaniesResponse "no companies mentioned here" = [] ∧
    executeCampaign true (.ok (some "no companies mentioned here"))
        (fun _ => .raised) 0 =
      .ok { campaign_id := none, results := [], total_companies := 0,
            total_contacts := 0, total_emails := 0,
            execution_time := some 0 } :=
  c7_no_headers_all_zero "no companies mentioned here" (fun _ => .raised) 0
    (by decide)

/-- Erasing a company whose processing raises does not change the result
list of the per-company loop. -/
theorem campaignLoop_eraseIdx (step : CompanyData → StepOutcome) :
    ∀ (l : List CompanyData) (i : Nat) (hi : i < l.length),
      step (l.get ⟨i, hi⟩) = .raised →
      campaignLoop step l = campaignLoop step (l.eraseIdx i) := by
  intro l
  induction l with
  | nil => intro i hi; exact absurd hi (Nat.not_lt_zero i)
  | cons c cs ih =>
    intro i hi hr
    cases i with
    | zero =>
      have hc : step c = .raised := hr
      simp [campaignLoop, processCompany, hc, List.eraseIdx]
    | succ j =>
      have hj : j < cs.length := Nat.lt_of_succ_lt_succ hi
      have hr' : step (cs.get ⟨j, hj⟩) = .raised := hr
      simp only [List.eraseIdx, campaignLoop]
      rw [ih j hj hr']

/-- C6: if processing company `i` raises inside the per-company step, the
orchestrator catches it, omits exactly that company from the result list
(the results equal those of the run on the list with company `i` erased),
still processes every remaining company, does not raise, and reports over
the retained companies only. -/
theorem c6_company_exception_isolated (r : Option String)
    (step : CompanyData → StepOutcome) (elapsed : Nat) (i : Nat)
    (hi : i < (discoverCompanies r).length)
    (hr : step ((discoverCompanies r).get ⟨i, hi⟩) = .raised) :
    ∃ resp, executeCampaign true (.ok r) step elapsed = .ok resp ∧
      resp.results = campaignLoop step ((discoverCompanies r).eraseIdx i) ∧
      resp.total_companies = resp.results.length ∧
      resp.total_contacts = totalContacts resp.results ∧
      resp.total_emails = totalEmails resp.results := by
  have hne : discoverCompanies r ≠ [] := by
    intro h0
    rw [h0] at hi
    exact absurd hi (Nat.not_lt_zero i)
  refine ⟨{ campaign_id := none
            results := campaignLoop step (discoverCompanies r)
            total_companies := (campaignLoop step (discoverCompanies r)).length
            total_contacts := totalContacts (campaignLoop step (discoverCompanies r))
            total_emails := totalEmails (campaignLoop step (discoverCompanies r))
            execution_time := some elapsed }, ?_, ?_, rfl, rfl, rfl⟩
  · simp [executeCampaign, hne]
  · exact campaignLoop_eraseIdx step (discoverCompanies r) i hi hr

/-- C6 (witness): a run whose only company raises terminates with an
empty result list. -/
theorem c6_company_exception_isolated_witness :
    ∃ resp, executeCampaign true (.ok (some sampleDiscoveryText))
        (fun _ => .raised) 0 = .ok resp ∧
      resp.results =
        campaignLoop (fun _ => .raised)
          ((discoverCompanies (some sampleDiscoveryText)).eraseIdx 0) ∧
      resp.total_companies = resp.results.length ∧
      resp.total_contacts = totalContacts resp.results ∧
      resp.total_emails = totalEmails resp.results :=
  c6_company_exception_isolated (some sampleDiscoveryText) (fun _ => .raised) 0 0
    (by decide) rfl

/-- Inside the streaming per-company segment, every `completed` event
carries a result list together with totals derived from it. -/
theorem streamLoop_completed_totals (step : CompanyData → StepOutcome)
    (n elapsed : Nat) :
    ∀ (cs : List CompanyData) (idx : Nat) (acc : List CampaignResult)
      (e : StreamEvent), e ∈ streamLoop step n elapsed cs idx acc →
      e.status = "completed" →
      ∃ l, e.results = some l ∧ e.total_companies = some l.length ∧
        e.total_contacts = some (totalContacts l) ∧
        e.total_emails = some (totalEmails l) := by
  intro cs
  induction cs with
  | nil =>
    intro idx acc e he hs
    simp only [streamLoop, List.mem_singleton] at he
    subst he
    exact ⟨acc, rfl, rfl, rfl, rfl⟩
  | cons c cs ih =>
    intro idx acc e he hs
    simp only [streamLoop] at he
    rcases hp : processCompany step c with _ | r <;>
      simp only [hp, List.mem_cons] at he
    · rcases he with he | he
      · subst he
        exact absurd hs (by simp [processingEvent, baseEvent])
      · exact ih _ _ _ he hs
    · rcases he with he | he | he
      · subst he
        exact absurd hs (by simp [processingEvent, baseEvent])
      · subst he
        exact absurd hs (by simp [completedCompanyEvent, baseEvent])
      · exact ih _ _ _ he hs

/-- C1 (amended): every response `execute_campaign` returns has
`total_companies`, `total_contacts` and `total_emails` equal to the
count/sums derived from its result list; in the streaming variant, every
`completed` event carries a result list, and either its totals equal the
values derived from that list (the non-empty-discovery terminal event) or
the list is empty and the event carries no totals at all (the
zero-company terminal event). -/
theorem c1_report_totals_derived :
    (∀ (validated : Bool) (discovery : Except String (Option String))
        (step : CompanyData → StepOutcome) (elapsed : Nat)
        (resp : CampaignExecutionResponse),
        executeCampaign validated discovery step elapsed = .ok resp →
        resp.total_companies = resp.results.length ∧
        resp.total_contacts = totalContacts resp.results ∧
        resp.total_emails = totalEmails resp.results) ∧
    (∀ (validated : Bool) (discovery : Except String (Option String))
        (step : CompanyData → StepOutcome) (elapsed : Nat) (e : StreamEvent),
        e ∈ executeCampaignStreaming validated discovery step elapsed →
        e.status = "completed" →
        ∃ l, e.results = some l ∧
          ((e.total_companies = some l.length ∧
            e.total_contacts = some (totalContacts l) ∧
            e.total_emails = some (totalEmails l)) ∨
           (l = [] ∧ e.total_companies = none ∧ e.total_contacts = none ∧
            e.total_emails = none))) := by
  constructor
  · intro validated discovery step elapsed resp h
    unfold executeCampaign at h
    split at h
    · exact Except.noConfusion h
    · split at h
      · exact Except.noConfusion h
      · split at h
        · cases h
          exact ⟨rfl, rfl, rfl⟩
        · cases h
          exact ⟨rfl, rfl, rfl⟩
  · intro validated discovery step elapsed e he hs
    unfold executeCampaignStreaming at he
    rcases List.mem_cons.mp he with he | he
    · subst he
      exact absurd hs (by decide)
    · split at he
      · simp only [List.mem_singleton] at he
        subst he
        exact absurd hs (by decide)
      · rcases List.mem_cons.mp he with he | he
        · subst he
          exact absurd hs (by decide)
        · split at he
          · simp only [List.mem_singleton] at he
            subst he
            exact absurd hs (by simp [runErrorEvent, baseEvent])
          · rcases List.mem_cons.mp he with he | he
            · subst he
              exact absurd hs (by simp [discoveredEvent, baseEvent])
            · split at he
              · simp only [List.mem_singleton] at he
                subst he
                exact ⟨[], rfl, Or.inr ⟨rfl, rfl, rfl, rfl⟩⟩
              · obtain ⟨l, h1, h2, h3, h4⟩ :=
                  streamLoop_completed_totals step _ elapsed _ 1 [] e he hs
                exact ⟨l, h1, Or.inl ⟨h2, h3, h4⟩⟩

/-- C1 (counterexample): in the streaming run whose discovery yields no
companies, the terminal `completed` event carries `results = []` but no
totals fields at all — in particular its `total_companies` is absent
rather than the derived count `0`. -/
theorem c1_counterexample :
    completedEmptyEvent ∈
      executeCampaignStreaming true (.ok none) (fun _ => .raised) 0 ∧
    completedEmptyEvent.status = "completed" ∧
    completedEmptyEvent.results = some [] ∧
    completedEmptyEvent.total_companies = none ∧
    completedEmptyEvent.total_contacts = none ∧
    completedEmptyEvent.total_emails = none :=
  ⟨List.Mem.tail _ (List.Mem.tail _ (List.Mem.tail _ (List.Mem.head _))),
    rfl, rfl, rfl, rfl, rfl⟩

/-- C1 (witness): the synchronous equalities evaluated on a concrete
one-company run, and the streaming clause evaluated on the terminal event
of the zero-company run. -/
theorem c1_report_totals_derived_witness :
    (∃ resp, executeCampaign true (.ok (some sampleDiscoveryText))
        (fun _ => .ok sampleResult) 0 = .ok resp ∧
      resp.total_companies = resp.results.length ∧
      resp.total_contacts = totalContacts resp.results ∧
      resp.total_emails = totalEmails resp.results) ∧
    (∃ l, completedEmptyEvent.results = some l ∧
      ((completedEmptyEvent.total_companies = some l.length ∧
        completedEmptyEvent.total_contacts = some (totalContacts l) ∧
        completedEmptyEvent.total_emails = some (totalEmails l)) ∨
       (l = [] ∧ completedEmptyEvent.total_companies = none ∧
        completedEmptyEvent.total_contacts = none ∧
        completedEmptyEvent.total_emails = none))) :=
  ⟨⟨_, rfl,
      c1_report_totals_derived.1 true (.ok (some sampleDiscoveryText))
        (fun _ => .ok sampleResult) 0 _ rfl⟩,
    c1_report_totals_derived.2 true (.ok none) (fun _ => .raised) 0
      completedEmptyEvent
      (List.Mem.tail _ (List.Mem.tail _ (List.Mem.tail _ (List.Mem.head _))))
      rfl⟩

/-- Number of events with a given status. -/
def countStatus (s : String) (evs : List StreamEvent) : Nat :=
  evs.countP (fun e => e.status == s)

/-- The status sequence of the per-company streaming segment when every
company succeeds: a `processing`/`completed_company` pair per company,
then the terminal `completed`. -/
def pairSeq : List CompanyData → List String
  | [] => ["completed"]
  | _ :: cs => "processing" :: "completed_company" :: pairSeq cs

/-- The streaming per-company segment is never empty. -/
theorem streamLoop_ne_nil (step : CompanyData → StepOutcome)
    (n elapsed : Nat) (cs : List CompanyData) (idx : Nat)
    (acc : List CampaignResult) : streamLoop step n elapsed cs idx acc ≠ [] := by
  cases cs with
  | nil => simp [streamLoop]
  | cons c cs =>
    simp only [streamLoop]
    cases processCompany step c <;> simp

/-- Dropping the head of a list with a non-empty tail keeps its last
element. -/
theorem getLast?_cons_of_ne_nil {α : Type} (a : α) {l : List α}
    (h : l ≠ []) : (a :: l).getLast? = l.getLast? := by
  cases l with
  | nil => exact absurd rfl h
  | cons b bs => exact List.getLast?_cons_cons

/-- The last event of the streaming per-company segment is the terminal
`completed` event over the accumulated results plus the results of the
remaining companies. -/
theorem streamLoop_getLast (step : CompanyData → StepOutcome)
    (n elapsed : Nat) :
    ∀ (cs : List CompanyData) (idx : Nat) (acc : List CampaignResult),
      (streamLoop step n elapsed cs idx acc).getLast? =
        some (completedEvent (acc ++ campaignLoop step cs) elapsed) := by
  intro cs
  induction cs with
  | nil =>
    intro idx acc
    simp [streamLoop, campaignLoop]
  | cons c cs ih =>
    intro idx acc
    simp only [streamLoop, campaignLoop]
    rcases hp : processCompany step c with _ | r <;> simp only [hp]
    · rw [getLast?_cons_of_ne_nil _ (streamLoop_ne_nil step n elapsed cs (idx + 1) acc)]
      exact ih (idx + 1) acc
    · rw [List.getLast?_cons_cons,
        getLast?_cons_of_ne_nil _ (streamLoop_ne_nil step n elapsed cs (idx + 1) (acc ++ [r]))]
      rw [ih (idx + 1) (acc ++ [r])]
      simp

/-- Unfolding lemma: status count of a cons cell. -/
theorem countStatus_cons (s : String) (e : StreamEvent)
    (evs : List StreamEvent) :
    countStatus s (e :: evs) =
      (if e.status == s then 1 else 0) + countStatus s evs := by
  simp [countStatus, List.countP_cons, Nat.add_comm]

/-- Status count of the empty event list. -/
theorem countStatus_nil (s : String) : countStatus s [] = 0 :=
  rfl

theorem status_starting : startingEvent.status = "starting" := rfl

theorem status_discovering : discoveringEvent.status = "discovering" := rfl

theorem status_discovered (n : Nat) :
    (discoveredEvent n).status = "discovered" := rfl

theorem status_processing (c : CompanyData) (idx n : Nat) :
    (processingEvent c idx n).status = "processing" := rfl

theorem status_completedCompany (c : CompanyData) (idx n : Nat)
    (r : CampaignResult) :
    (completedCompanyEvent c idx n r).status = "completed_company" := rfl

theorem status_completed (results : List CampaignResult) (elapsed : Nat) :
    (completedEvent results elapsed).status = "completed" := rfl

/-- Status counts of the streaming per-company segment: one `processing`
event per company, one `completed_company` event per non-raising company,
exactly one `completed` event, and no events of any other status. -/
theorem streamLoop_counts (step : CompanyData → StepOutcome)
    (n elapsed : Nat) :
    ∀ (cs : List CompanyData) (idx : Nat) (acc : List CampaignResult),
      countStatus "processing" (streamLoop step n elapsed cs idx acc) =
        cs.length ∧
      countStatus "completed_company" (streamLoop step n elapsed cs idx acc) =
        (cs.filter (fun c => (step c).succeeded)).length ∧
      countStatus "completed" (streamLoop step n elapsed cs idx acc) = 1 ∧
      ∀ s, s ≠ "processing" → s ≠ "completed_company" → s ≠ "completed" →
        countStatus s (streamLoop step n elapsed cs idx acc) = 0 := by
  intro cs
  induction cs with
  | nil =>
    intro idx acc
    refine ⟨?_, ?_, ?_, ?_⟩
    · simp [streamLoop, countStatus_cons, countStatus_nil, status_completed]
    · simp [streamLoop, countStatus_cons, countStatus_nil, status_completed]
    · simp [streamLoop, countStatus_cons, countStatus_nil, status_completed]
    · intro s h1 h2 h3
      simp [streamLoop, countStatus_cons, countStatus_nil, status_completed,
        Ne.symm h3]
  | cons c cs ih =>
    intro idx acc
    rcases hs : step c with r | _
    · have hp : processCompany step c = some r := by
        simp [processCompany, hs]
      obtain ⟨ih1, ih2, ih3, ih4⟩ := ih (idx + 1) (acc ++ [r])
      have hfilter : (c :: cs).filter (fun x => (step x).succeeded) =
          c :: cs.filter (fun x => (step x).succeeded) := by
        simp [List.filter_cons, hs, StepOutcome.succeeded]
      refine ⟨?_, ?_, ?_, ?_⟩
      · simp only [streamLoop, hp, countStatus_cons, status_processing,
          status_completedCompany, ih1]
        simp [Nat.add_comm]
      · simp only [streamLoop, hp, countStatus_cons, status_processing,
          status_completedCompany, ih2, hfilter]
        simp [Nat.add_comm]
      · simp only [streamLoop, hp, countStatus_cons, status_processing,
          status_completedCompany, ih3]
        simp [Nat.add_comm]
      · intro s h1 h2 h3
        simp only [streamLoop, hp, countStatus_cons, status_processing,
          status_completedCompany, ih4 s h1 h2 h3]
        simp [Ne.symm h1, Ne.symm h2]
    · have hp : processCompany step c = none := by
        simp [processCompany, hs]
      obtain ⟨ih1, ih2, ih3, ih4⟩ := ih (idx + 1) acc
      have hfilter : (c :: cs).filter (fun x => (step x).succeeded) =
          cs.filter (fun x => (step x).succeeded) := by
        simp [List.filter_cons, hs, StepOutcome.succeeded]
      refine ⟨?_, ?_, ?_, ?_⟩
      · simp only [streamLoop, hp, countStatus_cons, status_processing, ih1]
        simp [Nat.add_comm]
      · simp only [streamLoop, hp, countStatus_cons, status_processing, ih2,
          hfilter]
        simp [Nat.add_comm]
      · simp only [streamLoop, hp, countStatus_cons, status_processing, ih3]
        simp [Nat.add_comm]
      · intro s h1 h2 h3
        simp only [streamLoop, hp, countStatus_cons, status_processing,
          ih4 s h1 h2 h3]
        simp [Ne.symm h1]

/-- When no company raises, the statuses of the streaming per-company
segment are exactly the `processing`/`completed_company` pairs followed by
the terminal `completed`. -/
theorem streamLoop_map_status (step : CompanyData → StepOutcome)
    (n elapsed : Nat) :
    ∀ (cs : List CompanyData) (idx : Nat) (acc : List CampaignResult),
      (∀ c ∈ cs, (step c).succeeded = true) →
      (streamLoop step n elapsed cs idx acc).map StreamEvent.status =
        pairSeq cs := by
  intro cs
  induction cs with
  | nil =>
    intro idx acc _
    simp [streamLoop, pairSeq, status_completed]
  | cons c cs ih =>
    intro idx acc h
    have hc := h c (List.mem_cons_self _ _)
    rcases hs : step c with r | _
    · have hp : processCompany step c = some r := by
        simp [processCompany, hs]
      simp only [streamLoop, hp, List.map_cons, status_processing,
        status_completedCompany, pairSeq]
      rw [ih (idx + 1) (acc ++ [r]) (fun x hx => h x (List.mem_cons_of_mem _ hx))]
    · rw [hs] at hc
      exact absurd hc (by simp [StepOutcome.succeeded])

/-- C8: for a streaming run with `N ≥ 1` discovered companies and no
run-level error, the yielded sequence contains exactly one `starting`, one
`discovering`, one `discovered` and one `completed` event, `N` `processing`
events, one `completed_company` event per company whose step did not
raise, the last event is the `completed` event with `progress = 1`, and —
when no company raises — the statuses form exactly `N` adjacent
`processing`/`completed_company` pairs between the prefix and the terminal
`completed`. -/
theorem c8_streaming_event_sequence (r : Option String)
    (step : CompanyData → StepOutcome) (elapsed : Nat)
    (evs : List StreamEvent)
    (hevs : evs = executeCampaignStreaming true (.ok r) step elapsed)
    (hn : discoverCompanies r ≠ []) :
    countStatus "starting" evs = 1 ∧
    countStatus "discovering" evs = 1 ∧
    countStatus "discovered" evs = 1 ∧
    countStatus "processing" evs = (discoverCompanies r).length ∧
    countStatus "completed_company" evs =
      ((discoverCompanies r).filter (fun c => (step c).succeeded)).length ∧
    countStatus "completed" evs = 1 ∧
    evs.getLast? =
      some (completedEvent (campaignLoop step (discoverCompanies r)) elapsed) ∧
    (completedEvent (campaignLoop step (discoverCompanies r)) elapsed).progress = 1 ∧
    ((∀ c ∈ discoverCompanies r, (step c).succeeded = true) →
      evs.map StreamEvent.status =
        "starting" :: "discovering" :: "discovered" ::
          pairSeq (discoverCompanies r)) := by
  have hform : executeCampaignStreaming true (.ok r) step elapsed =
      startingEvent :: discoveringEvent ::
        discoveredEvent (discoverCompanies r).length ::
        streamLoop step (discoverCompanies r).length elapsed
          (discoverCompanies r) 1 [] := by
    simp [executeCampaignStreaming, hn]
  subst hevs
  rw [hform]
  obtain ⟨hcp, hcc, hcdone, hother⟩ :=
    streamLoop_counts step (discoverCompanies r).length elapsed
      (discoverCompanies r) 1 []
  refine ⟨?_, ?_, ?_, ?_, ?_, ?_, ?_, rfl, ?_⟩
  · simp [countStatus_cons, status_starting, status_discovering,
      status_discovered, hother "starting" (by decide) (by decide) (by decide)]
  · simp [countStatus_cons, status_starting, status_discovering,
      status_discovered,
      hother "discovering" (by decide) (by decide) (by decide)]
  · simp [countStatus_cons, status_starting, status_discovering,
      status_discovered,
      hother "discovered" (by decide) (by decide) (by decide)]
  · simp [countStatus_cons, status_starting, status_discovering,
      status_discovered, hcp]
  · simp [countStatus_cons, status_starting, status_discovering,
      status_discovered, hcc]
  · simp [countStatus_cons, status_starting, status_discovering,
      status_discovered, hcdone]
  · rw [List.getLast?_cons_cons, List.getLast?_cons_cons,
      getLast?_cons_of_ne_nil _
        (streamLoop_ne_nil step (discoverCompanies r).length elapsed
          (discoverCompanies r) 1 []),
      streamLoop_getLast step (discoverCompanies r).length elapsed
        (discoverCompanies r) 1 []]
    simp
  · intro hall
    simp only [List.map_cons, status_starting, status_discovering,
      status_discovered]
    rw [streamLoop_map_status step (discoverCompanies r).length elapsed
      (discoverCompanies r) 1 [] hall]

/-- C8 (witness): the event shape evaluated on a concrete one-company
streaming run in which the company succeeds. -/
theorem c8_streaming_event_sequence_witness :
    countStatus "processing"
        (executeCampaignStreaming true (.ok (some sampleDiscoveryText))
          (fun _ => .ok sampleResult) 0) = 1 ∧
    countStatus "completed_company"
        (executeCampaignStreaming true (.ok (some sampleDiscoveryText))
          (fun _ => .ok sampleResult) 0) = 1 ∧
    countStatus "completed"
        (executeCampaignStreaming true (.ok (some sampleDiscoveryText))
          (fun _ => .ok sampleResult) 0) = 1 ∧
    (executeCampaignStreaming true (.ok (some sampleDiscoveryText))
          (fun _ => .ok sampleResult) 0).map StreamEvent.status =
      ["starting", "discovering", "discovered", "processing",
        "completed_company", "completed"] := by
  obtain ⟨_, _, _, h4, h5, h6, _, _, h9⟩ :=
    c8_streaming_event_sequence (some sampleDiscoveryText)
      (fun _ => .ok sampleResult) 0 _ rfl (by decide)
  refine ⟨h4.trans (by decide), h5.trans (by decide), h6, ?_⟩
  exact (h9 (by decide)).trans (by decide)

end EmailGTM
